import Mathlib

/-!
Verification development for the TRMNLPicker selection engine
(`src/index.js` of usetrmnl/trmnl-picker), shallowly embedded in Lean.

Modelling conventions:
* JS objects become structures; fields that JS may leave `undefined`
  become `Option` fields (`none` = absent/undefined).
* JS string truthiness (`if (s)`) is `s ≠ ""` on a present string.
* `Array.prototype.find` is `List.find?`; `Array.prototype.filter` is
  `List.filter`; `Array.prototype.some` is `List.any`.
* `Array.prototype.sort` with a consistent comparator is stable
  (ES2019), so it is modelled as a stable insertion sort on the
  comparator key; `localeCompare` on lowercased strings is modelled as
  the lexicographic order on `String.toLower`.
* DOM reads/writes and event dispatch transports are outside the state
  engine; the notification payload construction, however, evaluates the
  `screenClasses` getter, which throws when no model is selected, so
  operations that emit are embedded in `Except String`.
-/

namespace TRMNLPicker

/-- A palette object (`{id, name, framework_class}`); a missing or
undefined `framework_class` is modelled as `""`. -/
structure Palette where
  id : String
  name : String
  framework_class : String
deriving Repr, DecidableEq

/-- A model object; `label` may be absent, `css.classes.device` and
`css.classes.size` are flattened into optional fields. -/
structure Model where
  name : String
  label : Option String
  kind : String
  palette_ids : List String
  deviceClass : Option String
  sizeClass : Option String
deriving Repr, DecidableEq

/-- The in-memory selection state `this._state`.  `index.js` initialises
it to the empty object `{}`, so every field starts absent (`none`). -/
structure PState where
  model : Option Model
  palette : Option Palette
  isPortrait : Option Bool
  isDarkMode : Option Bool
deriving Repr, DecidableEq

/-- `this._state = {}` -/
def emptyState : PState := ⟨none, none, none, none⟩

/-- A partial update object (argument of `_setParams`), also the shape
of the persisted record (`params` getter / JSON round trip; JSON drops
`undefined` fields, hence `Option`). -/
structure UpdateParams where
  modelName : Option String := none
  paletteId : Option String := none
  isPortrait : Option Bool := none
  isDarkMode : Option Bool := none
deriving Repr, DecidableEq

/-- `String.prototype.trim`: strip leading and trailing whitespace
(written structurally over the character list so that it reduces in the
kernel; `String.trim` of the standard library computes the same
characters). -/
def jsTrim (s : String) : String :=
  String.mk ((s.toList.dropWhile Char.isWhitespace).reverse.dropWhile Char.isWhitespace).reverse

/-- `palette.framework_class && palette.framework_class.trim() !== ''` -/
def usablePalette (p : Palette) : Bool :=
  p.framework_class != "" && jsTrim p.framework_class != ""

/-- The predicate of `_filterValidModels` / `_getFirstValidPaletteId`:
the palette id resolves (first palette with that id) to a usable palette. -/
def paletteIdUsable (palettes : List Palette) (pid : String) : Bool :=
  match palettes.find? (fun p => p.id == pid) with
  | some p => usablePalette p
  | none => false

/-- `_filterValidModels`: keep models with at least one usable palette. -/
def filterValidModels (models : List Model) (palettes : List Palette) : List Model :=
  models.filter (fun m => m.palette_ids.any (fun pid => paletteIdUsable palettes pid))

/-- `_getFirstValidPaletteId`: first palette id of the model resolving to
a usable palette; `null` when the model is `null` or none qualifies. -/
def getFirstValidPaletteId (palettes : List Palette) : Option Model → Option String
  | none => none
  | some m => m.palette_ids.find? (fun pid => paletteIdUsable palettes pid)

/-- `this.palettes.find(p => p.id === firstPaletteId)` where
`firstPaletteId` may be `null` (then nothing matches). -/
def paletteForFirstValid (palettes : List Palette) (m? : Option Model) : Option Palette :=
  match getFirstValidPaletteId palettes m? with
  | some pid => palettes.find? (fun p => p.id == pid)
  | none => none

/-- `_setParams(origin, params)` state/changed core (`index.js`
lines 506-566).  DOM writes are dropped; notification emission is
`changed && origin` and is modelled separately (`notifies`,
`applyParams`). -/
def setParams (models : List Model) (palettes : List Palette)
    (st : PState) (u : UpdateParams) : PState × Bool :=
  let changed := false
  -- Update model if provided (`if (params.modelName)`)
  let (st, changed) :=
    match u.modelName with
    | some s =>
      if s == "" then (st, changed)
      else
        match models.find? (fun (m : Model) => m.name == s) with
        | some m =>
          ({ st with model := some m, palette := paletteForFirstValid palettes (some m) }, true)
        | none => (st, changed)
    | none => (st, changed)
  -- Update palette if provided (`if (params.paletteId)`)
  let (st, changed) :=
    match u.paletteId with
    | some s =>
      if s == "" then (st, changed)
      else
        match palettes.find? (fun (p : Palette) => p.id == s) with
        | some p => ({ st with palette := some p }, true)
        | none => (st, changed)
    | none => (st, changed)
  -- Update orientation if provided (`typeof params.isPortrait === 'boolean'`)
  let (st, changed) :=
    match u.isPortrait with
    | some b => ({ st with isPortrait := some b }, true)
    | none => (st, changed)
  -- Update dark mode if provided
  let (st, changed) :=
    match u.isDarkMode with
    | some b => ({ st with isDarkMode := some b }, true)
    | none => (st, changed)
  (st, changed)

/-- A change notification is emitted (and, when a storage key is
configured, the persisted record written) exactly when `_setParams`
computed `changed` and a truthy origin tag was supplied. -/
def notifies (models : List Model) (palettes : List Palette)
    (st : PState) (origin : String) (u : UpdateParams) : Bool :=
  (setParams models palettes st u).2 && (origin != "")

/-- The `screenClasses` getter: ordered class list, throws
`'No model selected'` when the state has no model. -/
def screenClasses (st : PState) : Except String (List String) :=
  match st.model with
  | none => .error "No model selected"
  | some model =>
    let classes : List String := []
    -- 0. Base screen class (always present)
    let classes := classes ++ ["screen"]
    -- 1. Palette framework class (`if (palette && palette.framework_class)`)
    let classes := classes ++
      (match st.palette with
       | some p => if p.framework_class != "" then [p.framework_class] else []
       | none => [])
    -- 2. Model device class (`model.css && model.css.classes && ...device`)
    let classes := classes ++
      (match model.deviceClass with
       | some d => if d != "" then [d] else []
       | none => [])
    -- 3. Model size class
    let classes := classes ++
      (match model.sizeClass with
       | some s => if s != "" then [s] else []
       | none => [])
    -- 4. Orientation (only portrait)
    let classes := classes ++ (if st.isPortrait == some true then ["screen--portrait"] else [])
    -- 5. Scale (always 1x)
    let classes := classes ++ ["screen--1x"]
    -- 6. Dark mode (conditional)
    let classes := classes ++ (if st.isDarkMode == some true then ["screen--dark-mode"] else [])
    .ok classes

/-- `_setParams` followed by `_emitChangeEvent` when it changed and the
origin is truthy: building the event payload reads the `screenClasses`
getter, which throws when no model is selected, so the whole operation
is fallible. -/
def applyParams (models : List Model) (palettes : List Palette)
    (st : PState) (origin : String) (u : UpdateParams) :
    Except String (PState × Bool) :=
  let r := setParams models palettes st u
  if r.2 && (origin != "") then
    match screenClasses r.1 with
    | .error e => .error e
    | .ok _ => .ok r
  else
    .ok r

/-- `_resetToModelDefaults`: no-op without a model, else routes the
first usable palette id of the current model plus landscape/light
defaults through `_setParams`. -/
def resetToModelDefaults (models : List Model) (palettes : List Palette)
    (st : PState) : PState × Bool :=
  match st.model with
  | none => (st, false)
  | some m =>
    setParams models palettes st
      { modelName := none
        paletteId := getFirstValidPaletteId palettes (some m)
        isPortrait := some false
        isDarkMode := some false }

/-- The `params` getter: serialisable projection of the state (this is
what `_saveToLocalStorage` writes; `JSON.stringify` drops `undefined`
fields, which `Option` already captures). -/
def params (st : PState) : UpdateParams :=
  { modelName := st.model.map (fun m => m.name)
    paletteId := st.palette.map (fun p => p.id)
    isPortrait := st.isPortrait
    isDarkMode := st.isDarkMode }

/-- `(a.label || a.name).toLowerCase()`: sort key of the model
comparator (an absent or empty label falls back to the name). -/
def sortKey (m : Model) : String :=
  (match m.label with
   | some l => if l == "" then m.name else l
   | none => m.name).toLower

/-- Lexicographic comparison of character lists (the shallow model of
`localeCompare`, written structurally so it reduces in the kernel). -/
def charListLe : List Char → List Char → Bool
  | [], _ => true
  | _ :: _, [] => false
  | c :: cs, d :: ds => if c = d then charListLe cs ds else decide (c < d)

/-- `labelA.localeCompare(labelB) <= 0` on the lowercased keys. -/
def keyLe (a b : Model) : Bool :=
  charListLe (sortKey a).toList (sortKey b).toList

/-- Stable insertion of a model into an already sorted list: the new
element goes after every element whose key is ≤ its own, which is
exactly the relative order a stable sort gives elements arriving later. -/
def insertByKey (x : Model) : List Model → List Model
  | [] => [x]
  | y :: ys => if keyLe y x then y :: insertByKey x ys else x :: y :: ys

/-- Stable sort by `sortKey` (models `Array.prototype.sort` with the
`localeCompare`-on-lowercased-labels comparator, which is stable and
consistent, so the stable-sorted result is unique). -/
def sortByLabel (l : List Model) : List Model :=
  l.foldl (fun acc x => insertByKey x acc) []

/-- The combined group order of `_setInitialState`: TRMNL-kind models
first, then the rest, each group sorted by label. -/
def sortedModels (models : List Model) : List Model :=
  let trmnlModels := models.filter (fun m => m.kind == "trmnl")
  let byodModels := models.filter (fun m => m.kind != "trmnl")
  sortByLabel trmnlModels ++ sortByLabel byodModels

/-- `DEFAULT_MODEL_NAME` -/
def DEFAULT_MODEL_NAME : String := "og_plus"

/-- `_setInitialState` (given the already filtered model list): apply a
saved record through `_setParams('constructor', ...)` when present,
else select the default model/palette and landscape/light flags. -/
def setInitialState (models : List Model) (palettes : List Palette)
    (saved : Option UpdateParams) : Except String PState :=
  match saved with
  | some savedParams =>
    (applyParams models palettes emptyState "constructor" savedParams).map Prod.fst
  | none =>
    match (sortedModels models).head? with
    | none => .error "TRMNLPicker: empty model list"
    | some firstSorted =>
      let defaultModel :=
        ((sortedModels models).find? (fun m => m.name == DEFAULT_MODEL_NAME)).getD firstSorted
      let defaultPaletteId := getFirstValidPaletteId palettes (some defaultModel)
      (applyParams models palettes emptyState "constructor"
        { modelName := some defaultModel.name
          paletteId := defaultPaletteId
          isPortrait := some false
          isDarkMode := some false }).map Prod.fst

/-- The catalog-validation part of the constructor (lines 83-106):
non-empty checks and the eligible-model filter. -/
def validateCatalog (models : List Model) (palettes : List Palette) :
    Except String (List Model) :=
  if models.isEmpty then
    .error "TRMNLPicker: models must be a non-empty array"
  else if palettes.isEmpty then
    .error "TRMNLPicker: palettes must be a non-empty array"
  else
    let ms := filterValidModels models palettes
    if ms.isEmpty then
      .error "TRMNLPicker: no valid models found (all models have palettes with empty framework_class)"
    else
      .ok ms

/-- Full construction: catalog validation then `_setInitialState`,
where `saved` is the (already parsed) persisted record, if any. -/
def initPicker (models : List Model) (palettes : List Palette)
    (saved : Option UpdateParams) : Except String PState :=
  match validateCatalog models palettes with
  | .error e => .error e
  | .ok ms => setInitialState ms palettes saved

end TRMNLPicker

namespace TRMNLPicker

/-! ## Helper lemmas -/

theorem paletteIdUsable_spec {ps : List Palette} {pid : String}
    (h : paletteIdUsable ps pid = true) :
    ∃ p, ps.find? (fun p => p.id == pid) = some p ∧ usablePalette p = true := by
  unfold paletteIdUsable at h
  cases hf : ps.find? (fun p => p.id == pid) with
  | none => rw [hf] at h; exact absurd h (by simp)
  | some p => rw [hf] at h; exact ⟨p, rfl, h⟩

theorem getFirstValid_spec {ps : List Palette} {m : Model} {pid : String}
    (h : getFirstValidPaletteId ps (some m) = some pid) :
    pid ∈ m.palette_ids ∧ paletteIdUsable ps pid = true := by
  unfold getFirstValidPaletteId at h
  exact ⟨List.mem_of_find?_eq_some h, List.find?_some h⟩

theorem eligible_firstValid_isSome {ps : List Palette} {m : Model}
    (h : m.palette_ids.any (fun pid => paletteIdUsable ps pid) = true) :
    ∃ pid, getFirstValidPaletteId ps (some m) = some pid := by
  unfold getFirstValidPaletteId
  have h2 : (m.palette_ids.find? (fun pid => paletteIdUsable ps pid)).isSome = true :=
    List.find?_isSome.mpr (List.any_eq_true.mp h)
  exact Option.isSome_iff_exists.mp h2

theorem paletteForFirstValid_spec {ps : List Palette} {m : Model}
    (h : m.palette_ids.any (fun pid => paletteIdUsable ps pid) = true) :
    ∃ p, paletteForFirstValid ps (some m) = some p ∧ usablePalette p = true ∧
      p.id ∈ m.palette_ids := by
  obtain ⟨pid, hpid⟩ := eligible_firstValid_isSome h
  have hmem : pid ∈ m.palette_ids := (getFirstValid_spec hpid).1
  obtain ⟨p, hfind, hu⟩ := paletteIdUsable_spec (getFirstValid_spec hpid).2
  refine ⟨p, ?_, hu, ?_⟩
  · unfold paletteForFirstValid
    rw [hpid]
    exact hfind
  · have hb : (p.id == pid) = true := by simpa using List.find?_some hfind
    rw [eq_of_beq hb]
    exact hmem

theorem mem_insertByKey {x a : Model} {l : List Model} :
    a ∈ insertByKey x l ↔ a = x ∨ a ∈ l := by
  induction l with
  | nil => simp [insertByKey]
  | cons y ys ih =>
    unfold insertByKey
    cases hc : keyLe y x
    · rw [if_neg (by simp [hc])]
      simp only [List.mem_cons]
    · rw [if_pos (by simp [hc])]
      simp only [List.mem_cons, ih]
      tauto

theorem mem_foldl_insertByKey {l : List Model} :
    ∀ {acc : List Model} {a : Model},
      (a ∈ l.foldl (fun acc x => insertByKey x acc) acc ↔ a ∈ acc ∨ a ∈ l) := by
  induction l with
  | nil => intro acc a; simp
  | cons y ys ih =>
    intro acc a
    rw [List.foldl_cons, ih, mem_insertByKey]
    simp only [List.mem_cons]
    tauto

theorem mem_sortByLabel {l : List Model} {a : Model} :
    a ∈ sortByLabel l ↔ a ∈ l := by
  unfold sortByLabel
  rw [mem_foldl_insertByKey]
  simp

theorem mem_sortedModels {l : List Model} {a : Model} :
    a ∈ sortedModels l ↔ a ∈ l := by
  unfold sortedModels
  simp only [List.mem_append, mem_sortByLabel, List.mem_filter]
  constructor
  · rintro (⟨h, _⟩ | ⟨h, _⟩) <;> exact h
  · intro h
    by_cases hk : (a.kind == "trmnl") = true
    · left
      exact ⟨h, hk⟩
    · right
      refine ⟨h, ?_⟩
      simp only [Bool.not_eq_true] at hk
      simp [bne, hk]

theorem sortedModels_ne_nil {l : List Model} (h : l ≠ []) : sortedModels l ≠ [] := by
  obtain ⟨a, ha⟩ := List.exists_mem_of_ne_nil l h
  intro hs
  have hmem : a ∈ sortedModels l := mem_sortedModels.mpr ha
  rw [hs] at hmem
  exact absurd hmem (List.not_mem_nil a)

theorem find?_name_eq_of_nodup {l : List Model} {m : Model}
    (hnodup : (l.map (fun x => x.name)).Nodup) (hm : m ∈ l) :
    l.find? (fun x => x.name == m.name) = some m := by
  induction l with
  | nil => simp at hm
  | cons y ys ih =>
    rw [List.map_cons, List.nodup_cons] at hnodup
    rcases List.mem_cons.mp hm with rfl | hmem
    · have hb : (m.name == m.name) = true := beq_self_eq_true m.name
      rw [List.find?_cons, hb]
    · have hne : y.name ≠ m.name := by
        intro he
        exact hnodup.1 (he ▸ List.mem_map_of_mem (fun x => x.name) hmem)
      have hb : (y.name == m.name) = false := beq_eq_false_iff_ne.mpr hne
      rw [List.find?_cons, hb]
      exact ih hnodup.2 hmem

/-- Boolean success test for `Except` results. -/
def exceptOk {α : Type} : Except String α → Bool
  | .ok _ => true
  | .error _ => false

end TRMNLPicker

namespace TRMNLPicker

/-! ## Claim theorems -/

/-- C5: for every state with a selected model, `screenClasses` is exactly,
in order: the constant base class `"screen"`, the selected palette's
display class (if a palette is selected and its class is non-empty), the
model's device class (if present and non-empty), the model's size class
(if present and non-empty), the portrait marker only when `isPortrait`,
the constant scale marker `"screen--1x"`, and the dark-mode marker only
when `isDarkMode`; with no selected model it fails; with all parts
present the output is exactly the seven-element list in that order. -/
theorem c5_screenClasses_ordered (st : PState) :
    (st.model = none → screenClasses st = .error "No model selected") ∧
    (∀ m, st.model = some m →
      screenClasses st = .ok
        (["screen"] ++
         (match st.palette with
          | some p => if p.framework_class != "" then [p.framework_class] else []
          | none => []) ++
         (match m.deviceClass with
          | some d => if d != "" then [d] else []
          | none => []) ++
         (match m.sizeClass with
          | some sz => if sz != "" then [sz] else []
          | none => []) ++
         (if st.isPortrait == some true then ["screen--portrait"] else []) ++
         ["screen--1x"] ++
         (if st.isDarkMode == some true then ["screen--dark-mode"] else []))) ∧
    screenClasses ⟨some ⟨"m1", none, "trmnl", ["pp"], some "d1", some "s1"⟩,
                   some ⟨"pp", "PP", "c1"⟩, some true, some true⟩ =
      .ok ["screen", "c1", "d1", "s1", "screen--portrait", "screen--1x", "screen--dark-mode"] := by
  obtain ⟨mo, pal, prt, dk⟩ := st
  refine ⟨?_, ?_, rfl⟩
  · intro h
    subst h
    rfl
  · intro m h
    subst h
    simp [screenClasses]

/-- C5 witness: the theorem applied to a concrete full state and to a
state without a model. -/
theorem c5_screenClasses_ordered_witness :
    screenClasses ⟨some ⟨"w", none, "trmnl", ["q"], none, none⟩,
                   some ⟨"q", "Q", "cw"⟩, some false, none⟩ =
      .ok ["screen", "cw", "screen--1x"] ∧
    screenClasses emptyState = .error "No model selected" := by
  constructor
  · have h := (c5_screenClasses_ordered
      ⟨some ⟨"w", none, "trmnl", ["q"], none, none⟩,
       some ⟨"q", "Q", "cw"⟩, some false, none⟩).2.1 ⟨"w", none, "trmnl", ["q"], none, none⟩ rfl
    rw [h]
    rfl
  · exact (c5_screenClasses_ordered emptyState).1 rfl

/-- C7: applying an update whose `modelName` matches no model in the
(eligible) model list and whose `paletteId` matches no known palette,
with no boolean field, leaves the state unchanged, reports no change,
emits no notification, and raises no error. -/
theorem c7_unknown_ids_noop (models : List Model) (palettes : List Palette)
    (st : PState) (u : UpdateParams) (origin : String)
    (hm : ∀ s, u.modelName = some s → models.find? (fun m => m.name == s) = none)
    (hp : ∀ s, u.paletteId = some s → palettes.find? (fun p => p.id == s) = none)
    (hbp : u.isPortrait = none) (hbd : u.isDarkMode = none) :
    setParams models palettes st u = (st, false) ∧
    applyParams models palettes st origin u = .ok (st, false) ∧
    notifies models palettes st origin u = false := by
  obtain ⟨mn, pid, prt, dk⟩ := u
  simp only at hbp hbd
  subst hbp
  subst hbd
  have h1 : setParams models palettes st ⟨mn, pid, none, none⟩ = (st, false) := by
    cases mn with
    | none =>
      cases pid with
      | none => rfl
      | some t =>
        have hpt := hp t rfl
        rcases eq_or_ne t "" with rfl | ht
        · rfl
        · simp [setParams, hpt, ht]
    | some s =>
      have hms := hm s rfl
      cases pid with
      | none =>
        rcases eq_or_ne s "" with rfl | hs
        · rfl
        · simp [setParams, hms, hs]
      | some t =>
        have hpt := hp t rfl
        rcases eq_or_ne s "" with rfl | hs
        · rcases eq_or_ne t "" with rfl | ht
          · rfl
          · simp [setParams, hpt, ht]
        · rcases eq_or_ne t "" with rfl | ht
          · simp [setParams, hms, hs]
          · simp [setParams, hms, hpt, hs, ht]
  refine ⟨h1, ?_, ?_⟩
  · simp [applyParams, h1]
  · simp [notifies, h1]

/-- C7 witness: the theorem applied to a concrete state and an update
naming an unknown model and an unknown palette. -/
theorem c7_unknown_ids_noop_witness :
    setParams [⟨"a", none, "trmnl", ["p1"], none, none⟩] [⟨"p1", "P1", "x"⟩]
        ⟨some ⟨"a", none, "trmnl", ["p1"], none, none⟩, some ⟨"p1", "P1", "x"⟩,
         some false, some false⟩
        { modelName := some "nope", paletteId := some "nope2" } =
      (⟨some ⟨"a", none, "trmnl", ["p1"], none, none⟩, some ⟨"p1", "P1", "x"⟩,
        some false, some false⟩, false) ∧
    notifies [⟨"a", none, "trmnl", ["p1"], none, none⟩] [⟨"p1", "P1", "x"⟩]
        ⟨some ⟨"a", none, "trmnl", ["p1"], none, none⟩, some ⟨"p1", "P1", "x"⟩,
         some false, some false⟩ "setParams"
        { modelName := some "nope", paletteId := some "nope2" } = false := by
  have h := c7_unknown_ids_noop
    [⟨"a", none, "trmnl", ["p1"], none, none⟩] [⟨"p1", "P1", "x"⟩]
    ⟨some ⟨"a", none, "trmnl", ["p1"], none, none⟩, some ⟨"p1", "P1", "x"⟩,
     some false, some false⟩
    { modelName := some "nope", paletteId := some "nope2" } "setParams"
    (by intro s hs; cases hs; rfl)
    (by intro s hs; cases hs; rfl)
    rfl rfl
  exact ⟨h.1, h.2.2⟩

/-- C9: catalog validation at construction fails exactly when the
models or palettes collection is empty, or when no model survives the
eligible-model filter; otherwise it succeeds with exactly the filtered
(eligible) model list. -/
theorem c9_validation (models : List Model) (palettes : List Palette) :
    (exceptOk (validateCatalog models palettes) = true ↔
      (models ≠ [] ∧ palettes ≠ [] ∧ filterValidModels models palettes ≠ [])) ∧
    (∀ l, validateCatalog models palettes = .ok l →
      l = filterValidModels models palettes) := by
  constructor
  · unfold validateCatalog
    by_cases h1 : models.isEmpty
    · simp [h1, exceptOk, List.isEmpty_iff.mp h1]
    · have h1' : models ≠ [] := fun he => h1 (by simp [he])
      by_cases h2 : palettes.isEmpty
      · simp [h1, h2, exceptOk, List.isEmpty_iff.mp h2]
      · have h2' : palettes ≠ [] := fun he => h2 (by simp [he])
        by_cases h3 : (filterValidModels models palettes).isEmpty
        · simp [h1, h2, h3, exceptOk, List.isEmpty_iff.mp h3]
        · have h3' : filterValidModels models palettes ≠ [] := fun he => h3 (by simp [he])
          simp [h1, h2, h3, exceptOk, h1', h2', h3']
  · intro l hl
    unfold validateCatalog at hl
    by_cases h1 : models.isEmpty <;> by_cases h2 : palettes.isEmpty <;>
      by_cases h3 : (filterValidModels models palettes).isEmpty <;>
      simp [h1, h2, h3] at hl
    exact hl.symm

/-- C9 witness: the theorem applied to a concrete one-model catalog. -/
theorem c9_validation_witness :
    exceptOk (validateCatalog [⟨"a", none, "trmnl", ["p1"], none, none⟩]
      [⟨"p1", "P1", "x"⟩]) = true ∧
    validateCatalog [⟨"a", none, "trmnl", ["p1"], none, none⟩] [⟨"p1", "P1", "x"⟩] =
      .ok [⟨"a", none, "trmnl", ["p1"], none, none⟩] := by
  have h := (c9_validation [⟨"a", none, "trmnl", ["p1"], none, none⟩]
    [⟨"p1", "P1", "x"⟩]).1.mpr (by refine ⟨?_, ?_, ?_⟩ <;> decide)
  exact ⟨h, by rfl⟩

/-- C10: an empty-string `modelName` or `paletteId` in an update is
treated exactly as if the field were absent (the JS truthiness guard);
an update carrying only such fields reports no change and emits no
notification. -/
theorem c10_empty_string_ignored (models : List Model) (palettes : List Palette)
    (st : PState) :
    (∀ u : UpdateParams, u.modelName = some "" →
      setParams models palettes st u = setParams models palettes st { u with modelName := none }) ∧
    (∀ u : UpdateParams, u.paletteId = some "" →
      setParams models palettes st u = setParams models palettes st { u with paletteId := none }) ∧
    setParams models palettes st { modelName := some "", paletteId := some "" } = (st, false) ∧
    (∀ origin, notifies models palettes st origin
      { modelName := some "", paletteId := some "" } = false) := by
  refine ⟨?_, ?_, ?_, ?_⟩
  · rintro ⟨mn, pid, prt, dk⟩ h
    simp only at h
    subst h
    rfl
  · rintro ⟨mn, pid, prt, dk⟩ h
    simp only at h
    subst h
    cases mn with
    | none => rfl
    | some s =>
      rcases eq_or_ne s "" with rfl | hs
      · rfl
      · cases hf : models.find? (fun m => m.name == s) <;> simp [setParams, hf, hs]
  · rfl
  · intro origin
    simp [notifies, setParams]

/-- C10 witness: the theorem applied to a concrete catalog and state. -/
theorem c10_empty_string_ignored_witness :
    setParams [⟨"a", none, "trmnl", ["p1"], none, none⟩] [⟨"p1", "P1", "x"⟩]
        ⟨some ⟨"a", none, "trmnl", ["p1"], none, none⟩, some ⟨"p1", "P1", "x"⟩,
         some false, some false⟩
        { modelName := some "", paletteId := some "" } =
      (⟨some ⟨"a", none, "trmnl", ["p1"], none, none⟩, some ⟨"p1", "P1", "x"⟩,
        some false, some false⟩, false) ∧
    setParams [⟨"a", none, "trmnl", ["p1"], none, none⟩] [⟨"p1", "P1", "x"⟩]
        ⟨some ⟨"a", none, "trmnl", ["p1"], none, none⟩, some ⟨"p1", "P1", "x"⟩,
         some false, some false⟩
        { modelName := some "", paletteId := some "p1", isPortrait := some true } =
      setParams [⟨"a", none, "trmnl", ["p1"], none, none⟩] [⟨"p1", "P1", "x"⟩]
        ⟨some ⟨"a", none, "trmnl", ["p1"], none, none⟩, some ⟨"p1", "P1", "x"⟩,
         some false, some false⟩
        { modelName := none, paletteId := some "p1", isPortrait := some true } := by
  constructor
  · exact (c10_empty_string_ignored [⟨"a", none, "trmnl", ["p1"], none, none⟩]
      [⟨"p1", "P1", "x"⟩]
      ⟨some ⟨"a", none, "trmnl", ["p1"], none, none⟩, some ⟨"p1", "P1", "x"⟩,
       some false, some false⟩).2.2.1
  · exact (c10_empty_string_ignored [⟨"a", none, "trmnl", ["p1"], none, none⟩]
      [⟨"p1", "P1", "x"⟩]
      ⟨some ⟨"a", none, "trmnl", ["p1"], none, none⟩, some ⟨"p1", "P1", "x"⟩,
       some false, some false⟩).1
      { modelName := some "", paletteId := some "p1", isPortrait := some true } rfl

end TRMNLPicker

namespace TRMNLPicker

/-- Demo catalog: model `a` references only `p1`, model `b` only `p2`;
both palettes are usable, and `p2` is not referenced by `a`. -/
def cxA : Model := ⟨"a", none, "trmnl", ["p1"], none, none⟩

def cxB : Model := ⟨"b", none, "trmnl", ["p2"], none, none⟩

def cxP1 : Palette := ⟨"p1", "P1", "x"⟩

def cxP2 : Palette := ⟨"p2", "P2", "y"⟩

/-- What `_setParams` does when the update names a known model: the
model is replaced, a change is reported, and the palette becomes the
override named by `paletteId` when that id is non-empty and known, else
the new model's first usable palette. -/
theorem setParams_model_spec (models : List Model) (palettes : List Palette)
    (st : PState) (u : UpdateParams) (s : String) (m : Model)
    (hmn : u.modelName = some s) (hs : s ≠ "")
    (hfind : models.find? (fun x => x.name == s) = some m) :
    (setParams models palettes st u).1.model = some m ∧
    (setParams models palettes st u).2 = true ∧
    (setParams models palettes st u).1.palette =
      (match u.paletteId with
       | some pid =>
         if pid = "" then paletteForFirstValid palettes (some m)
         else
           match palettes.find? (fun p => p.id == pid) with
           | some p => some p
           | none => paletteForFirstValid palettes (some m)
       | none => paletteForFirstValid palettes (some m)) := by
  obtain ⟨mn, pid, prt, dk⟩ := u
  simp only at hmn
  subst hmn
  cases pid with
  | none => cases prt <;> cases dk <;> simp [setParams, hfind, hs]
  | some t =>
    rcases eq_or_ne t "" with rfl | ht
    · cases prt <;> cases dk <;> simp [setParams, hfind, hs]
    · cases hf : palettes.find? (fun p => p.id == t) with
      | none => cases prt <;> cases dk <;> simp [setParams, hfind, hs, ht, hf]
      | some p => cases prt <;> cases dk <;> simp [setParams, hfind, hs, ht, hf]

/-- C1 counterexample: state showing model `a`/palette `p1`; the update
`{modelName: "b", paletteId: "p1"}` yields model `b` but palette `p1`
(the `paletteId` branch runs after the model branch and overrides the
first-usable reset), while the first usable palette of `b` is `p2`. -/
theorem c1_counterexample :
    (setParams [cxA, cxB] [cxP1, cxP2] ⟨some cxA, some cxP1, some false, some false⟩
      { modelName := some "b", paletteId := some "p1" }).1.model = some cxB ∧
    (setParams [cxA, cxB] [cxP1, cxP2] ⟨some cxA, some cxP1, some false, some false⟩
      { modelName := some "b", paletteId := some "p1" }).1.palette = some cxP1 ∧
    paletteForFirstValid [cxP1, cxP2] (some cxB) = some cxP2 ∧
    cxP1 ≠ cxP2 := by
  refine ⟨rfl, rfl, rfl, ?_⟩
  decide

/-- C1 (amended): an update with a known eligible `modelName` sets the
model and reports a change; the palette is reset to the new model's
first usable palette only when the `paletteId` of the same update is
absent, empty, or unknown — a known `paletteId` overrides the reset
(the palette branch runs after the model branch). -/
theorem c1_amended_model_palette_update (models : List Model) (palettes : List Palette)
    (st : PState) (u : UpdateParams) (s : String) (m : Model)
    (hmn : u.modelName = some s) (hs : s ≠ "")
    (hfind : models.find? (fun x => x.name == s) = some m) :
    (setParams models palettes st u).1.model = some m ∧
    (setParams models palettes st u).2 = true ∧
    (setParams models palettes st u).1.palette =
      (match u.paletteId with
       | some pid =>
         if pid = "" then paletteForFirstValid palettes (some m)
         else
           match palettes.find? (fun p => p.id == pid) with
           | some p => some p
           | none => paletteForFirstValid palettes (some m)
       | none => paletteForFirstValid palettes (some m)) :=
  setParams_model_spec models palettes st u s m hmn hs hfind

/-- C1 witness: the amended theorem applied to the demo catalog, with
the override (`paletteId` known) and no-override (`paletteId` absent)
outcomes evaluated. -/
theorem c1_amended_model_palette_update_witness :
    (setParams [cxA, cxB] [cxP1, cxP2] ⟨some cxA, some cxP1, some false, some false⟩
      { modelName := some "b", paletteId := some "p1" }).1.model = some cxB ∧
    (setParams [cxA, cxB] [cxP1, cxP2] ⟨some cxA, some cxP1, some false, some false⟩
      { modelName := some "b" }).1.palette = some cxP2 := by
  have h1 := c1_amended_model_palette_update [cxA, cxB] [cxP1, cxP2]
    ⟨some cxA, some cxP1, some false, some false⟩
    { modelName := some "b", paletteId := some "p1" } "b" cxB rfl (by decide) rfl
  have h2 := c1_amended_model_palette_update [cxA, cxB] [cxP1, cxP2]
    ⟨some cxA, some cxP1, some false, some false⟩
    { modelName := some "b" } "b" cxB rfl (by decide) rfl
  refine ⟨h1.1, ?_⟩
  rw [h2.2.2]
  rfl

/-- C2 counterexample: from the state `initPicker` itself produces
(model `a`, palette `p1`), the update `{paletteId: "p2"}` selects the
known palette `p2` even though the selected model `a` does not
reference it — the model/palette consistency invariant is broken by a
palette-only update. -/
theorem c2_counterexample :
    initPicker [cxA] [cxP1, cxP2] none =
      .ok ⟨some cxA, some cxP1, some false, some false⟩ ∧
    (setParams (filterValidModels [cxA] [cxP1, cxP2]) [cxP1, cxP2]
      ⟨some cxA, some cxP1, some false, some false⟩
      { paletteId := some "p2" }).1 =
      (⟨some cxA, some cxP2, some false, some false⟩ : PState) ∧
    ("p2" ∈ cxA.palette_ids) = False := by
  refine ⟨rfl, rfl, ?_⟩
  simp [cxA]

/-- C2 (amended): the consistency invariant holds for model selection:
for every eligible model `m`, after an update whose `modelName` names
`m` and whose `paletteId` is absent, empty, or unknown, the selected
palette is `m`'s first usable palette — usable, referenced by `m`, and
not null.  (A palette-only update, by contrast, may select any known
palette, even one the current model does not reference, so the
invariant is not preserved by every operation.) -/
theorem c2_amended_invariant_on_model_select (models : List Model) (palettes : List Palette)
    (st : PState) (u : UpdateParams) (s : String) (m : Model)
    (hmn : u.modelName = some s) (hs : s ≠ "")
    (hfind : models.find? (fun x => x.name == s) = some m)
    (helig : m.palette_ids.any (fun pid => paletteIdUsable palettes pid) = true)
    (hpal : match u.paletteId with
            | some pid => pid = "" ∨ palettes.find? (fun p => p.id == pid) = none
            | none => True) :
    (setParams models palettes st u).1.model = some m ∧
    ∃ p, (setParams models palettes st u).1.palette = some p ∧
      usablePalette p = true ∧ p.id ∈ m.palette_ids := by
  obtain ⟨p, hp, hu, hmem⟩ := paletteForFirstValid_spec helig
  obtain ⟨h1, _, h3⟩ := setParams_model_spec models palettes st u s m hmn hs hfind
  refine ⟨h1, p, ?_, hu, hmem⟩
  rw [h3]
  cases hpid : u.paletteId with
  | none => exact hp
  | some t =>
    rw [hpid] at hpal
    rcases hpal with rfl | hnone
    · simp [hp]
    · simp [hnone, hp]

/-- C2 witness: the amended theorem applied to the demo catalog. -/
theorem c2_amended_invariant_on_model_select_witness :
    (setParams [cxA, cxB] [cxP1, cxP2] emptyState { modelName := some "b" }).1.model = some cxB ∧
    ∃ p, (setParams [cxA, cxB] [cxP1, cxP2] emptyState { modelName := some "b" }).1.palette = some p ∧
      usablePalette p = true ∧ p.id ∈ cxB.palette_ids :=
  c2_amended_invariant_on_model_select [cxA, cxB] [cxP1, cxP2] emptyState
    { modelName := some "b" } "b" cxB rfl (by decide) rfl (by decide) trivial

end TRMNLPicker

namespace TRMNLPicker

/-- A field of an update is "accepted" when its branch of `_setParams`
fires: a non-empty `modelName` naming a known model, a non-empty
`paletteId` naming a known palette, or a boolean flag being present —
regardless of whether the stored value differs. -/
def acceptsField (models : List Model) (palettes : List Palette) (u : UpdateParams) : Bool :=
  (match u.modelName with
   | some s => s != "" && (models.find? (fun m => m.name == s)).isSome
   | none => false) ||
  (match u.paletteId with
   | some s => s != "" && (palettes.find? (fun p => p.id == s)).isSome
   | none => false) ||
  u.isPortrait.isSome || u.isDarkMode.isSome

/-- C3 counterexample: from the exact state `initPicker` produces for a
one-model catalog (already at all defaults), `reset` reports a change —
and reports one again on an immediately repeated call — even though the
state is unchanged, so a notification is emitted on both calls. -/
theorem c3_counterexample :
    initPicker [cxA] [cxP1] none =
      .ok ⟨some cxA, some cxP1, some false, some false⟩ ∧
    resetToModelDefaults [cxA] [cxP1] ⟨some cxA, some cxP1, some false, some false⟩ =
      (⟨some cxA, some cxP1, some false, some false⟩, true) ∧
    resetToModelDefaults [cxA] [cxP1]
        (resetToModelDefaults [cxA] [cxP1]
          ⟨some cxA, some cxP1, some false, some false⟩).1 =
      (⟨some cxA, some cxP1, some false, some false⟩, true) ∧
    notifies [cxA] [cxP1] ⟨some cxA, some cxP1, some false, some false⟩ "form"
      { paletteId := getFirstValidPaletteId [cxP1] (some cxA)
        isPortrait := some false
        isDarkMode := some false } = true :=
  ⟨rfl, rfl, rfl, rfl⟩

/-- C3 (amended): `_setParams` reports a change — and hence emits a
notification and persists — exactly when some field of the update is
accepted (known non-empty model name, known non-empty palette id, or a
present boolean flag), not when a stored value actually differs; and
`reset`, which always supplies boolean fields, reports a change on
every call with a selected model, the second of two consecutive calls
included. -/
theorem c3_amended_changed_iff_accepted (models : List Model) (palettes : List Palette)
    (st : PState) :
    (∀ u, (setParams models palettes st u).2 = acceptsField models palettes u) ∧
    (∀ m, st.model = some m → (resetToModelDefaults models palettes st).2 = true) := by
  have hmain : ∀ u, (setParams models palettes st u).2 = acceptsField models palettes u := by
    rintro ⟨mn, pid, prt, dk⟩
    cases mn with
    | none =>
      cases pid with
      | none => cases prt <;> cases dk <;> simp [setParams, acceptsField]
      | some t =>
        rcases eq_or_ne t "" with rfl | ht
        · cases prt <;> cases dk <;> simp [setParams, acceptsField]
        · cases hf : palettes.find? (fun p => p.id == t) <;> cases prt <;> cases dk <;>
            simp [setParams, acceptsField, ht, hf]
    | some s =>
      rcases eq_or_ne s "" with rfl | hs
      · cases pid with
        | none => cases prt <;> cases dk <;> simp [setParams, acceptsField]
        | some t =>
          rcases eq_or_ne t "" with rfl | ht
          · cases prt <;> cases dk <;> simp [setParams, acceptsField]
          · cases hf : palettes.find? (fun p => p.id == t) <;> cases prt <;> cases dk <;>
              simp [setParams, acceptsField, ht, hf]
      · cases hm : models.find? (fun m => m.name == s) with
        | none =>
          cases pid with
          | none => cases prt <;> cases dk <;> simp [setParams, acceptsField, hs, hm]
          | some t =>
            rcases eq_or_ne t "" with rfl | ht
            · cases prt <;> cases dk <;> simp [setParams, acceptsField, hs, hm]
            · cases hf : palettes.find? (fun p => p.id == t) <;> cases prt <;> cases dk <;>
                simp [setParams, acceptsField, hs, hm, ht, hf]
        | some m =>
          cases pid with
          | none => cases prt <;> cases dk <;> simp [setParams, acceptsField, hs, hm]
          | some t =>
            rcases eq_or_ne t "" with rfl | ht
            · cases prt <;> cases dk <;> simp [setParams, acceptsField, hs, hm]
            · cases hf : palettes.find? (fun p => p.id == t) <;> cases prt <;> cases dk <;>
                simp [setParams, acceptsField, hs, hm, ht, hf]
  refine ⟨hmain, ?_⟩
  intro m hm
  unfold resetToModelDefaults
  rw [hm]
  rw [hmain]
  simp [acceptsField]

/-- C3 witness: the amended theorem applied to the demo catalog: a
no-op update is correctly reported unchanged, while reset on a
defaulted state still reports a change. -/
theorem c3_amended_changed_iff_accepted_witness :
    (setParams [cxA] [cxP1] ⟨some cxA, some cxP1, some false, some false⟩
      { modelName := some "nope" }).2 =
      acceptsField [cxA] [cxP1] { modelName := some "nope" } ∧
    (resetToModelDefaults [cxA] [cxP1]
      ⟨some cxA, some cxP1, some false, some false⟩).2 = true :=
  ⟨(c3_amended_changed_iff_accepted [cxA] [cxP1]
      ⟨some cxA, some cxP1, some false, some false⟩).1 { modelName := some "nope" },
   (c3_amended_changed_iff_accepted [cxA] [cxP1]
      ⟨some cxA, some cxP1, some false, some false⟩).2 cxA rfl⟩

end TRMNLPicker

namespace TRMNLPicker

theorem mem_of_head?_eq_some {l : List Model} {a : Model}
    (h : l.head? = some a) : a ∈ l := by
  cases l with
  | nil => simp at h
  | cons x xs =>
    simp only [List.head?_cons, Option.some.injEq] at h
    subst h
    exact List.mem_cons_self _ _

theorem palettes_ne_nil_of_filter_ne {models : List Model} {palettes : List Palette}
    (h : filterValidModels models palettes ≠ []) : palettes ≠ [] := by
  obtain ⟨m', hm'⟩ := List.exists_mem_of_ne_nil _ h
  rw [filterValidModels, List.mem_filter] at hm'
  obtain ⟨pid, _, hpid⟩ := List.any_eq_true.mp hm'.2
  obtain ⟨p, hfind, _⟩ := paletteIdUsable_spec hpid
  intro he
  subst he
  simp at hfind

theorem models_ne_nil_of_filter_ne {models : List Model} {palettes : List Palette}
    (h : filterValidModels models palettes ≠ []) : models ≠ [] := by
  obtain ⟨m', hm'⟩ := List.exists_mem_of_ne_nil _ h
  rw [filterValidModels, List.mem_filter] at hm'
  intro he
  subst he
  simp at hm'

theorem validateCatalog_ok_of_filter_ne {models : List Model} {palettes : List Palette}
    (h : filterValidModels models palettes ≠ []) :
    validateCatalog models palettes = .ok (filterValidModels models palettes) := by
  unfold validateCatalog
  have h1 : models.isEmpty = false := by
    cases hq : models.isEmpty
    · rfl
    · exact absurd (List.isEmpty_iff.mp hq) (models_ne_nil_of_filter_ne h)
  have h2 : palettes.isEmpty = false := by
    cases hq : palettes.isEmpty
    · rfl
    · exact absurd (List.isEmpty_iff.mp hq) (palettes_ne_nil_of_filter_ne h)
  have h3 : (filterValidModels models palettes).isEmpty = false := by
    cases hq : (filterValidModels models palettes).isEmpty
    · rfl
    · exact absurd (List.isEmpty_iff.mp hq) h
  simp [h1, h2, h3]

theorem screenClasses_ok_of_model {st : PState} {m : Model}
    (h : st.model = some m) : ∃ l, screenClasses st = .ok l := by
  obtain ⟨mo, pal, prt, dk⟩ := st
  simp only at h
  subst h
  exact ⟨_, rfl⟩

theorem applyParams_ok_of_model (origin : String) {models : List Model} {palettes : List Palette}
    {st : PState} {u : UpdateParams} {m : Model}
    (hm : (setParams models palettes st u).1.model = some m) :
    applyParams models palettes st origin u = .ok (setParams models palettes st u) := by
  unfold applyParams
  obtain ⟨l, hsc⟩ := screenClasses_ok_of_model hm
  by_cases hc : ((setParams models palettes st u).2 && (origin != "")) = true
  · simp only [hc, if_true, hsc]
  · simp only [Bool.not_eq_true] at hc
    simp only [hc, Bool.false_eq_true, if_false]

/-- The boolean flags written by `_setParams`: each is overwritten when
the update carries a boolean, else untouched. -/
theorem setParams_flags (models : List Model) (palettes : List Palette)
    (st : PState) (u : UpdateParams) :
    (setParams models palettes st u).1.isPortrait =
      (match u.isPortrait with | some b => some b | none => st.isPortrait) ∧
    (setParams models palettes st u).1.isDarkMode =
      (match u.isDarkMode with | some b => some b | none => st.isDarkMode) := by
  obtain ⟨mn, pid, prt, dk⟩ := u
  cases mn with
  | none =>
    cases pid with
    | none => cases prt <;> cases dk <;> simp [setParams]
    | some t =>
      rcases eq_or_ne t "" with rfl | ht
      · cases prt <;> cases dk <;> simp [setParams]
      · cases hf : palettes.find? (fun p => p.id == t) <;> cases prt <;> cases dk <;>
          simp [setParams, ht, hf]
  | some s =>
    rcases eq_or_ne s "" with rfl | hs
    · cases pid with
      | none => cases prt <;> cases dk <;> simp [setParams]
      | some t =>
        rcases eq_or_ne t "" with rfl | ht
        · cases prt <;> cases dk <;> simp [setParams]
        · cases hf : palettes.find? (fun p => p.id == t) <;> cases prt <;> cases dk <;>
            simp [setParams, ht, hf]
    · cases hm : models.find? (fun m => m.name == s) with
      | none =>
        cases pid with
        | none => cases prt <;> cases dk <;> simp [setParams, hs, hm]
        | some t =>
          rcases eq_or_ne t "" with rfl | ht
          · cases prt <;> cases dk <;> simp [setParams, hs, hm]
          · cases hf : palettes.find? (fun p => p.id == t) <;> cases prt <;> cases dk <;>
              simp [setParams, hs, hm, ht, hf]
      | some m =>
        cases pid with
        | none => cases prt <;> cases dk <;> simp [setParams, hs, hm]
        | some t =>
          rcases eq_or_ne t "" with rfl | ht
          · cases prt <;> cases dk <;> simp [setParams, hs, hm]
          · cases hf : palettes.find? (fun p => p.id == t) <;> cases prt <;> cases dk <;>
              simp [setParams, hs, hm, ht, hf]

end TRMNLPicker

namespace TRMNLPicker

/-- C6: with no persisted record, the model selected at initialization
is the first model of the combined group order (TRMNL-kind group before
the rest, each stably sorted by lowercased label falling back to name)
whose name is the preferred identifier `og_plus`, else the first model
of that combined order; the palette is that model's first usable
palette in the model's own palette-id order; orientation and dark mode
are false.  (Model names are assumed pairwise distinct and non-empty,
per the data model's unique string identifiers.) -/
theorem c6_default_selection (models : List Model) (palettes : List Palette)
    (m0 dm : Model)
    (hfil : filterValidModels models palettes ≠ [])
    (hnodup : ((filterValidModels models palettes).map (fun m => m.name)).Nodup)
    (hhead : (sortedModels (filterValidModels models palettes)).head? = some m0)
    (hdm : dm = ((sortedModels (filterValidModels models palettes)).find?
                  (fun m => m.name == DEFAULT_MODEL_NAME)).getD m0)
    (hname : dm.name ≠ "") :
    ∃ st, initPicker models palettes none = .ok st ∧
      st.model = some dm ∧
      (∃ pid p, getFirstValidPaletteId palettes (some dm) = some pid ∧
        st.palette = some p ∧ p.id = pid ∧ usablePalette p = true) ∧
      st.isPortrait = some false ∧ st.isDarkMode = some false := by
  have hdm_mem : dm ∈ filterValidModels models palettes := by
    rcases hfd : (sortedModels (filterValidModels models palettes)).find?
        (fun m => m.name == DEFAULT_MODEL_NAME) with _ | x
    · rw [hfd] at hdm
      simp only [Option.getD_none] at hdm
      subst hdm
      exact mem_sortedModels.mp (mem_of_head?_eq_some hhead)
    · rw [hfd] at hdm
      simp only [Option.getD_some] at hdm
      subst hdm
      exact mem_sortedModels.mp (List.mem_of_find?_eq_some hfd)
  have helig : dm.palette_ids.any (fun pid => paletteIdUsable palettes pid) = true := by
    have h' := hdm_mem
    rw [filterValidModels] at h'
    exact (List.mem_filter.mp h').2
  have hfindm : (filterValidModels models palettes).find?
      (fun x => x.name == dm.name) = some dm :=
    find?_name_eq_of_nodup hnodup hdm_mem
  -- the update the default path routes through `_setParams`
  set u : UpdateParams :=
    { modelName := some dm.name
      paletteId := getFirstValidPaletteId palettes (some dm)
      isPortrait := some false
      isDarkMode := some false } with hu
  obtain ⟨hstm, hstc, hstp⟩ := setParams_model_spec
    (filterValidModels models palettes) palettes emptyState u dm.name dm rfl hname hfindm
  have happ := applyParams_ok_of_model "constructor" hstm
  have e1 : initPicker models palettes none =
      setInitialState (filterValidModels models palettes) palettes none := by
    unfold initPicker
    rw [validateCatalog_ok_of_filter_ne hfil]
  have e2 : setInitialState (filterValidModels models palettes) palettes none =
      (applyParams (filterValidModels models palettes) palettes emptyState
        "constructor" u).map Prod.fst := by
    unfold setInitialState
    rw [hhead]
    simp only [← hdm]
  have hinit : initPicker models palettes none =
      .ok (setParams (filterValidModels models palettes) palettes emptyState u).1 := by
    rw [e1, e2, happ]
    rfl
  refine ⟨_, hinit, hstm, ?_, ?_, ?_⟩
  · obtain ⟨pid, hpid⟩ := eligible_firstValid_isSome helig
    obtain ⟨p, hfp, hup⟩ := paletteIdUsable_spec (getFirstValid_spec hpid).2
    refine ⟨pid, p, hpid, ?_, ?_, hup⟩
    · rw [hstp]
      simp only [hu]
      rw [hpid]
      rcases eq_or_ne pid "" with rfl | hne
      · simp [paletteForFirstValid, hpid, hfp]
      · simp [paletteForFirstValid, hne, hfp]
    · exact eq_of_beq (by simpa using List.find?_some hfp)
  · exact (setParams_flags _ _ _ _).1.trans (by simp [hu])
  · exact (setParams_flags _ _ _ _).2.trans (by simp [hu])

/-- C6 witness: the spec's scenario — one model `a` referencing
`["p1","p2"]` where `p1` has an empty display class: the default model
is `a` and the default palette resolves to `p2`, with both flags off. -/
theorem c6_default_selection_witness :
    ∃ st, initPicker [⟨"a", none, "trmnl", ["p1", "p2"], none, none⟩]
        [⟨"p1", "P1", ""⟩, ⟨"p2", "P2", "x"⟩] none = .ok st ∧
      st.model = some ⟨"a", none, "trmnl", ["p1", "p2"], none, none⟩ ∧
      (∃ pid p, getFirstValidPaletteId [⟨"p1", "P1", ""⟩, ⟨"p2", "P2", "x"⟩]
          (some ⟨"a", none, "trmnl", ["p1", "p2"], none, none⟩) = some pid ∧
        st.palette = some p ∧ p.id = pid ∧ usablePalette p = true) ∧
      st.isPortrait = some false ∧ st.isDarkMode = some false :=
  c6_default_selection [⟨"a", none, "trmnl", ["p1", "p2"], none, none⟩]
    [⟨"p1", "P1", ""⟩, ⟨"p2", "P2", "x"⟩]
    ⟨"a", none, "trmnl", ["p1", "p2"], none, none⟩
    ⟨"a", none, "trmnl", ["p1", "p2"], none, none⟩
    (by decide) (by decide) rfl rfl (by decide)

end TRMNLPicker

namespace TRMNLPicker

/-- C8: persistence round-trip.  Saving a state writes `params st`
(the storage contract round-trips the record exactly); constructing a
new instance over the same catalog with that record restores a model
with the saved name and the palette with the saved id, provided the
saved model is still eligible, the saved palette still known and
usable, and both identifiers are non-empty strings (the data model's
identifiers; `_setParams` treats an empty string as an absent field). -/
theorem c8_roundtrip (models : List Model) (palettes : List Palette)
    (st : PState) (m : Model) (p : Palette)
    (hm : st.model = some m) (hp : st.palette = some p)
    (hname : m.name ≠ "") (hpid : p.id ≠ "")
    (helig : ((filterValidModels models palettes).find?
      (fun x => x.name == m.name)).isSome = true)
    (hknown : (palettes.find? (fun q => q.id == p.id)).isSome = true)
    (_husable : usablePalette p = true) :
    ∃ st', initPicker models palettes (some (params st)) = .ok st' ∧
      (params st').modelName = some m.name ∧
      (params st').paletteId = some p.id := by
  obtain ⟨m', hfindm⟩ := Option.isSome_iff_exists.mp helig
  obtain ⟨p', hfindp⟩ := Option.isSome_iff_exists.mp hknown
  have hfil : filterValidModels models palettes ≠ [] := by
    intro he
    rw [he] at hfindm
    simp at hfindm
  have hrec : params st =
      { modelName := some m.name
        paletteId := some p.id
        isPortrait := st.isPortrait
        isDarkMode := st.isDarkMode } := by
    simp [params, hm, hp]
  obtain ⟨hstm, hstc, hstp⟩ := setParams_model_spec
    (filterValidModels models palettes) palettes emptyState (params st) m.name m'
    (by rw [hrec]) hname hfindm
  have happ := applyParams_ok_of_model "constructor" hstm
  have e1 : initPicker models palettes (some (params st)) =
      setInitialState (filterValidModels models palettes) palettes (some (params st)) := by
    unfold initPicker
    rw [validateCatalog_ok_of_filter_ne hfil]
  have e2 : setInitialState (filterValidModels models palettes) palettes (some (params st)) =
      .ok (setParams (filterValidModels models palettes) palettes emptyState (params st)).1 := by
    unfold setInitialState
    show (applyParams (filterValidModels models palettes) palettes emptyState
      "constructor" (params st)).map Prod.fst = _
    rw [happ]
    rfl
  have hmname : m'.name = m.name :=
    eq_of_beq (by simpa using List.find?_some hfindm)
  have hpname : p'.id = p.id :=
    eq_of_beq (by simpa using List.find?_some hfindp)
  have hproj1 : ∀ st0 : PState, (params st0).modelName = st0.model.map (fun x => x.name) :=
    fun _ => rfl
  have hproj2 : ∀ st0 : PState, (params st0).paletteId = st0.palette.map (fun x => x.id) :=
    fun _ => rfl
  refine ⟨_, e1.trans e2, ?_, ?_⟩
  · rw [hproj1, hstm]
    simp [hmname]
  · rw [hproj2, hstp, hrec]
    simp [hpid, hfindp, hpname]

/-- C8 witness: the theorem applied to the demo catalog and the state
`initPicker` itself produces for it. -/
theorem c8_roundtrip_witness :
    ∃ st', initPicker [cxA] [cxP1]
        (some (params ⟨some cxA, some cxP1, some false, some false⟩)) = .ok st' ∧
      (params st').modelName = some cxA.name ∧
      (params st').paletteId = some cxP1.id :=
  c8_roundtrip [cxA] [cxP1] ⟨some cxA, some cxP1, some false, some false⟩ cxA cxP1
    rfl rfl (by decide) (by decide) (by decide) (by decide) (by decide)

/-- `_setInitialState` of the earlier in-repo variant
(`src/unnamed/part_000`, lines 259-326): per-field validation of the
persisted record — the saved model name is used only when it names a
known model (else the default chain `og` / label `trmnl og`, `og_plus`,
`trmnl_original`, first sorted model); the saved palette id is used
only when it names a usable palette referenced by the selected model
(else the model's first usable palette); booleans default to `false`
and are overwritten only by saved booleans. -/
def setInitialStateV0 (models : List Model) (palettes : List Palette)
    (saved : Option UpdateParams) : Except String PState :=
  let sorted := sortedModels models
  let fromSaved : Option Model :=
    match saved with
    | some sp =>
      match sp.modelName with
      | some s => if s == "" then none else models.find? (fun m => m.name == s)
      | none => none
    | none => none
  let selModel? : Option Model :=
    match fromSaved with
    | some m => some m
    | none =>
      match sorted.find? (fun m => m.name == "og" ||
        (match m.label with
         | some l => l != "" && l.toLower == "trmnl og"
         | none => false)) with
      | some m => some m
      | none =>
        match sorted.find? (fun m => m.name == "og_plus") with
        | some m => some m
        | none =>
          match sorted.find? (fun m => m.name == "trmnl_original") with
          | some m => some m
          | none => sorted.head?
  match selModel? with
  | none => .error "TRMNLPicker: empty model list"
  | some selectedModel =>
    let savedPid : Option String :=
      match saved with
      | some sp =>
        match sp.paletteId with
        | some pid =>
          if pid == "" then none
          else
            match palettes.find? (fun p => p.id == pid) with
            | some savedPalette =>
              if usablePalette savedPalette && selectedModel.palette_ids.contains pid then
                some pid
              else none
            | none => none
        | none => none
      | none => none
    let paletteId : Option String :=
      match savedPid with
      | some pid => some pid
      | none => getFirstValidPaletteId palettes (some selectedModel)
    let selectedPalette : Option Palette :=
      match paletteId with
      | some pid => palettes.find? (fun p => p.id == pid)
      | none => none
    let prt : Bool :=
      match saved with
      | some sp => sp.isPortrait.getD false
      | none => false
    let dk : Bool :=
      match saved with
      | some sp => sp.isDarkMode.getD false
      | none => false
    .ok ⟨some selectedModel, selectedPalette, some prt, some dk⟩

/-- C4: the current `index.js` funnels a persisted record through
`_setParams`, so a record whose model name matches no eligible model
leaves no model selected — there is no per-field fallback to the
default model — and the constructor's change emission then throws
`'No model selected'`.  The earlier in-repo variant
(`src/unnamed/part_000`) implements exactly the claimed per-field
validation and accepts the same record as (default model `a`,
saved palette `p1`). -/
theorem c4_persisted_record_regression :
    initPicker [cxA] [cxP1] (some ⟨some "zzz", some "p1", some false, some false⟩) =
      .error "No model selected" ∧
    setInitialStateV0 [cxA] [cxP1] (some ⟨some "zzz", some "p1", some false, some false⟩) =
      .ok ⟨some cxA, some cxP1, some false, some false⟩ :=
  ⟨rfl, rfl⟩

end TRMNLPicker
